import Mathlib

/-!
Shallow embedding of the predictive-maintenance backend
(`backend/app/main.py` and `backend/app/api/v1/endpoints.py`).

Python floats are modelled as exact rationals (`ℚ`); Python ints as `ℤ`.
`round(x, 2)` is modelled by round-half-to-even at two decimal places,
matching Python's banker's rounding.  Dict lookups (`dict.get`,
`key in dict`, `dict[key]`) are modelled over association lists.
-/

namespace PMS

/-- An engine record of `FAKE_DB_ENGINES`: a dict
`{"max_cycles": ..., "status": ...}` in the source. -/
structure EngineRec where
  max_cycles : ℤ
  status : String
deriving DecidableEq, Repr

/-- A sensor metadata record of `SENSOR_METADATA`: a dict
`{"name": ..., "unit": ...}` in the source. -/
structure SensorMeta where
  name : String
  unit : String
deriving DecidableEq, Repr

/-- `FAKE_DB_ENGINES` (endpoints.py, lines 68-72): the static engine table. -/
def FAKE_DB_ENGINES : List (ℤ × EngineRec) :=
  [ (1, ⟨192, "Active"⟩),
    (2, ⟨250, "Retired"⟩),
    (5, ⟨150, "Active"⟩) ]

/-- `SENSOR_METADATA` (endpoints.py, lines 9-31): the static sensor table. -/
def SENSOR_METADATA : List (String × SensorMeta) :=
  [ ("s_1",  ⟨"Fan Inlet Temperature", "°R"⟩),
    ("s_2",  ⟨"LPC Outlet Temperature", "°R"⟩),
    ("s_3",  ⟨"HPC Outlet Temperature", "°R"⟩),
    ("s_4",  ⟨"LPT Outlet Temperature", "°R"⟩),
    ("s_5",  ⟨"Fan Inlet Pressure", "psia"⟩),
    ("s_6",  ⟨"Bypass Duct Pressure", "psia"⟩),
    ("s_7",  ⟨"HPC Outlet Pressure", "psia"⟩),
    ("s_8",  ⟨"Physical Fan Speed", "rpm"⟩),
    ("s_9",  ⟨"Physical Core Speed", "rpm"⟩),
    ("s_10", ⟨"Engine Pressure Ratio", "-"⟩),
    ("s_11", ⟨"HPC Outlet Static Pressure", "psia"⟩),
    ("s_12", ⟨"Fuel Flow Ratio", "pps/psi"⟩),
    ("s_13", ⟨"Corrected Fan Speed", "rpm"⟩),
    ("s_14", ⟨"Corrected Core Speed", "rpm"⟩),
    ("s_15", ⟨"Bypass Ratio", "-"⟩),
    ("s_16", ⟨"Burner Fuel-Air Ratio", "-"⟩),
    ("s_17", ⟨"Bleed Enthalpy", "-"⟩),
    ("s_18", ⟨"Demanded Fan Speed", "rpm"⟩),
    ("s_19", ⟨"Demanded Corrected Fan Speed", "rpm"⟩),
    ("s_20", ⟨"HPT Coolant Bleed", "lbm/s"⟩),
    ("s_21", ⟨"LPT Coolant Bleed", "lbm/s"⟩) ]

/-- Python `dict.get(k)` over an association list: the value at the first
matching key, `none` when absent. -/
def dictGet {α β : Type} [DecidableEq α] (db : List (α × β)) (k : α) : Option β :=
  (db.find? (fun p => p.1 = k)).map Prod.snd

/-- Python truthiness of the value `FAKE_DB_ENGINES.get(unit_id)`:
`None` is falsy, and a dict is falsy iff it is empty.  Every engine record
in this code is a dict with the two keys `max_cycles` and `status`, hence
nonempty and truthy; so the value is falsy exactly when the key is absent. -/
def pyTruthy : Option EngineRec → Bool
  | none => false
  | some _ => true

/-- Round-half-to-even to an integer, the rounding used by Python `round`. -/
def roundHalfEven (q : ℚ) : ℤ :=
  let f : ℤ := ⌊q⌋
  let r : ℚ := q - f
  if r < 1/2 then f
  else if 1/2 < r then f + 1
  else if f % 2 = 0 then f else f + 1

/-- Python `round(x, 2)`: round-half-to-even at two decimal places. -/
def round2 (q : ℚ) : ℚ := (roundHalfEven (q * 100) : ℚ) / 100

/-- The dictionary returned by `InferenceService.predict` (main.py, lines
22-43). -/
structure PredictResult where
  predicted_rul : ℤ
  health_score : ℚ
  risk_level : String
  confidence : ℚ
deriving DecidableEq, Repr

namespace InferenceService

/-- `InferenceService.predict` (main.py, lines 22-43): fixed RUL of 45,
health score `max(0, min(100, (predicted_rul / max_cycles) * 100))`,
risk bucketed on the unrounded score, score returned rounded to 2 places.
The `await asyncio.sleep(0.05)` delay has no observable effect on the
result and is not modelled. -/
def predict (max_cycles : ℤ) : PredictResult :=
  let predicted_rul : ℤ := 45
  let health_score : ℚ := max 0 (min 100 (((predicted_rul : ℚ) / (max_cycles : ℚ)) * 100))
  let risk : String :=
    if health_score < 30 then "High"
    else if health_score < 70 then "Medium"
    else "Low"
  { predicted_rul := predicted_rul
    health_score := round2 health_score
    risk_level := risk
    confidence := 95/100 }

end InferenceService

/-- A `fastapi.HTTPException` raised by a handler. -/
structure HTTPError where
  status_code : ℕ
  detail : String
deriving DecidableEq, Repr

/-- The `PredictionResponse` schema (endpoints.py, lines 49-55). -/
structure PredictionResponse where
  unit_id : ℤ
  current_cycle : ℤ
  predicted_rul : ℤ
  health_score : ℚ
  risk_level : String
  confidence : ℚ
deriving DecidableEq, Repr

/-- The `SensorSeries` schema (endpoints.py, lines 37-41). -/
structure SensorSeries where
  sensor_id : String
  name : String
  unit : String
  data : List ℤ
deriving DecidableEq, Repr

/-- The `SensorTrendResponse` schema (endpoints.py, lines 43-47). -/
structure SensorTrendResponse where
  unit_id : ℤ
  cycles : List ℤ
  rul_trend : List ℤ
  sensors : List SensorSeries
deriving DecidableEq, Repr

/-- The `EngineMetadata` schema (endpoints.py, lines 57-60). -/
structure EngineMetadata where
  unit_id : ℤ
  max_cycles : ℤ
  status : String
deriving DecidableEq, Repr

/-- `list_engines` (endpoints.py, lines 78-83), parametrized by the engine
table it reads. -/
def list_engines_db (db : List (ℤ × EngineRec)) : List EngineMetadata :=
  db.map (fun p => ⟨p.1, p.2.max_cycles, p.2.status⟩)

/-- `predict_rul` (endpoints.py, lines 86-102), parametrized by the engine
table.  `engine = FAKE_DB_ENGINES.get(unit_id); if not engine:` is the
truthiness test `pyTruthy`; since engine records are nonempty dicts this
fires exactly on `none` (see `pyTruthy`), which the `match` realizes. -/
def predict_rul_db (db : List (ℤ × EngineRec)) (unit_id : ℤ) :
    Except HTTPError PredictionResponse :=
  match dictGet db unit_id with
  | none => .error ⟨404, "Engine not found"⟩
  | some engine =>
    if engine.status = "Retired" then .error ⟨422, "Engine is retired"⟩
    else
      let result := InferenceService.predict engine.max_cycles
      .ok { unit_id := unit_id
            current_cycle := engine.max_cycles - result.predicted_rul
            predicted_rul := result.predicted_rul
            health_score := result.health_score
            risk_level := result.risk_level
            confidence := result.confidence }

/-- `get_trends` (endpoints.py, lines 105-128), parametrized by the engine
and sensor tables.  `SENSOR_METADATA[sid]` is a plain subscript; all four
hardcoded sensor ids are present in the table, so the `getD` default is
never taken. -/
def get_trends_db (db : List (ℤ × EngineRec)) (sm : List (String × SensorMeta))
    (unit_id : ℤ) : Except HTTPError SensorTrendResponse :=
  if (dictGet db unit_id).isNone then .error ⟨404, "Engine not found"⟩
  else
    let cycles : List ℤ := [100, 101, 102, 103, 104]
    let critical_sensors : List String := ["s_2", "s_11", "s_12", "s_14"]
    let sensors : List SensorSeries := critical_sensors.map (fun sid =>
      let meta := (dictGet sm sid).getD ⟨"", ""⟩
      { sensor_id := sid
        name := meta.name
        unit := meta.unit
        data := (List.range cycles.length).map (fun i => 1400 + (i : ℤ) * 2) })
    .ok { unit_id := unit_id
          cycles := cycles
          rul_trend := [50, 49, 48, 47, 45]
          sensors := sensors }

/-- The `/api/v1/engines` handler over the static table. -/
def list_engines : List EngineMetadata := list_engines_db FAKE_DB_ENGINES

/-- The `/api/v1/engines/{unit_id}/predict` handler over the static table. -/
def predict_rul (unit_id : ℤ) : Except HTTPError PredictionResponse :=
  predict_rul_db FAKE_DB_ENGINES unit_id

/-- The `/api/v1/engines/{unit_id}/trends` handler over the static tables. -/
def get_trends (unit_id : ℤ) : Except HTTPError SensorTrendResponse :=
  get_trends_db FAKE_DB_ENGINES SENSOR_METADATA unit_id

/-- The process state: the two static tables and the mutable model field of
the `InferenceService` stored in `app.state` (main.py, lines 12-14, 49-55).
`model` is `None` until `load` runs. -/
structure AppState where
  engines : List (ℤ × EngineRec)
  sensors : List (String × SensorMeta)
  model : Option String
deriving DecidableEq, Repr

/-- The state at process start, before the lifespan hook: tables defined,
model not yet loaded (`self.model = None`, main.py line 14). -/
def initState : AppState :=
  { engines := FAKE_DB_ENGINES, sensors := SENSOR_METADATA, model := none }

/-- `InferenceService.load` (main.py, lines 16-20): sets the model field to
`"LSTM_LOADED"` after an artificial delay (the delay is not modelled). -/
def InferenceService.load (s : AppState) : AppState :=
  { s with model := some "LSTM_LOADED" }

/-- The state after the lifespan startup hook (main.py, lines 49-54) has
completed: `load` has run on the initial state. -/
def startupState : AppState := InferenceService.load initState

/-- A request to one of the five handlers. -/
inductive ApiRequest where
  | listEngines
  | predict (unit_id : ℤ)
  | trends (unit_id : ℤ)
  | health
  | ready
deriving DecidableEq, Repr

/-- A response body from one of the five handlers. -/
inductive ApiResponse where
  | engines (body : List EngineMetadata)
  | prediction (body : PredictionResponse)
  | trend (body : SensorTrendResponse)
  | healthOk (status : String)
  | readyFlag (model_loaded : Bool)
  | httpError (e : HTTPError)
deriving DecidableEq, Repr

/-- The HTTP status code of a response: 200 for every success body, the
raised `HTTPException`'s code otherwise. -/
def statusOf : ApiResponse → ℕ
  | .httpError e => e.status_code
  | _ => 200

/-- Dispatch of one request against the current state, returning the state
after the handler and the response.  The handlers of the source contain no
assignment to the tables or the model field, so the state is returned as
received; `ready` reads `app.state.inference_service.model is not None`
(main.py, lines 80-84). -/
def handle (s : AppState) : ApiRequest → AppState × ApiResponse
  | .listEngines => (s, .engines (list_engines_db s.engines))
  | .predict u =>
      (s, match predict_rul_db s.engines u with
          | .ok r => .prediction r
          | .error e => .httpError e)
  | .trends u =>
      (s, match get_trends_db s.engines s.sensors u with
          | .ok t => .trend t
          | .error e => .httpError e)
  | .health => (s, .healthOk "ok")
  | .ready => (s, .readyFlag s.model.isSome)

/-- The states reachable once the startup hook has completed: the startup
state itself, and anything a handler run leads to. -/
inductive ReachableAfterStartup : AppState → Prop where
  | startup : ReachableAfterStartup startupState
  | step (s : AppState) (r : ApiRequest) :
      ReachableAfterStartup s → ReachableAfterStartup (handle s r).1

/-- The spec's `clamp(x, lo, hi)`: `x` forced into the interval
`[lo, hi]`. -/
def spec_clamp (x lo hi : ℚ) : ℚ := min hi (max lo x)

/-- The spec's scoring formula, written from its words: "health =
clamp(predicted_rul / max_cycles * 100, 0, 100), rounded to 2 decimal
places", with `predicted_rul` the fixed constant 45. -/
def spec_health_score (max_cycles : ℚ) : ℚ :=
  round2 (spec_clamp (45 / max_cycles * 100) 0 100)

/-! ## Helper lemmas -/

/-- Lookup in the static engine table, resolved key by key. -/
theorem dictGet_engines (u : ℤ) :
    dictGet FAKE_DB_ENGINES u =
      if u = 1 then some ⟨192, "Active"⟩
      else if u = 2 then some ⟨250, "Retired"⟩
      else if u = 5 then some ⟨150, "Active"⟩
      else none := by
  by_cases h1 : u = 1 <;> by_cases h2 : u = 2 <;> by_cases h5 : u = 5 <;>
    simp [dictGet, FAKE_DB_ENGINES, List.find?, eq_comm, h1, h2, h5]

/-- Every handler returns the state it received. -/
theorem handle_fst (s : AppState) (r : ApiRequest) : (handle s r).1 = s := by
  cases r <;> rfl

/-- After startup, the only reachable state is the startup state itself. -/
theorem reachable_eq_startup (s : AppState) (h : ReachableAfterStartup s) :
    s = startupState := by
  induction h with
  | startup => rfl
  | step s r _ ih => rw [handle_fst, ih]

/-- The response of `/predict` for unit 1, fully evaluated. -/
theorem predict_rul_one :
    predict_rul 1 = Except.ok ⟨1, 147, 45, 586/25, "High", 19/20⟩ := by
  have h1 : dictGet FAKE_DB_ENGINES 1 = some ⟨192, "Active"⟩ := by decide
  simp only [predict_rul, predict_rul_db, h1]
  rw [if_neg (by decide : ¬((⟨192, "Active"⟩ : EngineRec).status = "Retired"))]
  simp only [InferenceService.predict]
  norm_num [round2, roundHalfEven, PredictionResponse.mk.injEq]

/-- The response of `/predict` for unit 5, fully evaluated. -/
theorem predict_rul_five :
    predict_rul 5 = Except.ok ⟨5, 105, 45, 30, "Medium", 19/20⟩ := by
  have h5 : dictGet FAKE_DB_ENGINES 5 = some ⟨150, "Active"⟩ := by decide
  simp only [predict_rul, predict_rul_db, h5]
  rw [if_neg (by decide : ¬((⟨150, "Active"⟩ : EngineRec).status = "Retired"))]
  simp only [InferenceService.predict]
  norm_num [round2, roundHalfEven, PredictionResponse.mk.injEq]

/-- `/predict` on an absent key raises the 404 error. -/
theorem predict_rul_none {u : ℤ} (h : dictGet FAKE_DB_ENGINES u = none) :
    predict_rul u = Except.error ⟨404, "Engine not found"⟩ := by
  simp only [predict_rul, predict_rul_db, h]

/-- `/predict` on a retired engine raises the 422 error. -/
theorem predict_rul_retired {u : ℤ} {rec : EngineRec}
    (h : dictGet FAKE_DB_ENGINES u = some rec) (hst : rec.status = "Retired") :
    predict_rul u = Except.error ⟨422, "Engine is retired"⟩ := by
  simp only [predict_rul, predict_rul_db, h, if_pos hst]

/-- `/predict` on a present, non-retired engine returns the composed
response. -/
theorem predict_rul_active {u : ℤ} {rec : EngineRec}
    (h : dictGet FAKE_DB_ENGINES u = some rec) (hst : ¬rec.status = "Retired") :
    predict_rul u = Except.ok
      { unit_id := u
        current_cycle :=
          rec.max_cycles - (InferenceService.predict rec.max_cycles).predicted_rul
        predicted_rul := (InferenceService.predict rec.max_cycles).predicted_rul
        health_score := (InferenceService.predict rec.max_cycles).health_score
        risk_level := (InferenceService.predict rec.max_cycles).risk_level
        confidence := (InferenceService.predict rec.max_cycles).confidence } := by
  simp only [predict_rul, predict_rul_db, h, if_neg hst]

/-- `/trends` on an absent key raises the 404 error. -/
theorem get_trends_none {u : ℤ} (h : dictGet FAKE_DB_ENGINES u = none) :
    get_trends u = Except.error ⟨404, "Engine not found"⟩ := by
  simp [get_trends, get_trends_db, h]

/-- `/trends` on any present key succeeds. -/
theorem get_trends_some {u : ℤ} {rec : EngineRec}
    (h : dictGet FAKE_DB_ENGINES u = some rec) :
    ∃ t, get_trends u = Except.ok t := by
  simp only [get_trends, get_trends_db, h, Option.isNone_some, Bool.false_eq_true,
    if_false]
  exact ⟨_, rfl⟩

/-! ## Claims -/

/-- C1: for every engine record in the static table with status Active, the
prediction response has `health_score ∈ [0, 100]`, and its `risk_level` is
"High" iff the returned `health_score` is below 30, "Medium" iff it is in
`[30, 70)`, and "Low" otherwise. -/
theorem predict_health_bounds_and_risk :
    ∀ p ∈ FAKE_DB_ENGINES, p.2.status = "Active" →
      ∀ r : PredictionResponse, predict_rul p.1 = Except.ok r →
        0 ≤ r.health_score ∧ r.health_score ≤ 100 ∧
        (r.risk_level = "High" ↔ r.health_score < 30) ∧
        (r.risk_level = "Medium" ↔ 30 ≤ r.health_score ∧ r.health_score < 70) ∧
        (r.risk_level = "Low" ↔ 70 ≤ r.health_score) := by
  intro p hp hact r hr
  fin_cases hp
  · rw [predict_rul_one] at hr
    cases hr
    exact ⟨by norm_num, by norm_num,
      iff_of_true rfl (by norm_num),
      iff_of_false (by decide) (by norm_num),
      iff_of_false (by decide) (by norm_num)⟩
  · exact absurd hact (by decide)
  · rw [predict_rul_five] at hr
    cases hr
    exact ⟨by norm_num, by norm_num,
      iff_of_false (by decide) (by norm_num),
      iff_of_true rfl ⟨by norm_num, by norm_num⟩,
      iff_of_false (by decide) (by norm_num)⟩

/-- Witness for C1 at unit 1. -/
theorem predict_health_bounds_and_risk_witness :
    0 ≤ (⟨1, 147, 45, 586/25, "High", 19/20⟩ : PredictionResponse).health_score ∧
    (⟨1, 147, 45, 586/25, "High", 19/20⟩ : PredictionResponse).health_score ≤ 100 ∧
    ((⟨1, 147, 45, 586/25, "High", 19/20⟩ : PredictionResponse).risk_level = "High" ↔
      (⟨1, 147, 45, 586/25, "High", 19/20⟩ : PredictionResponse).health_score < 30) ∧
    ((⟨1, 147, 45, 586/25, "High", 19/20⟩ : PredictionResponse).risk_level = "Medium" ↔
      30 ≤ (⟨1, 147, 45, 586/25, "High", 19/20⟩ : PredictionResponse).health_score ∧
        (⟨1, 147, 45, 586/25, "High", 19/20⟩ : PredictionResponse).health_score < 70) ∧
    ((⟨1, 147, 45, 586/25, "High", 19/20⟩ : PredictionResponse).risk_level = "Low" ↔
      70 ≤ (⟨1, 147, 45, 586/25, "High", 19/20⟩ : PredictionResponse).health_score) :=
  predict_health_bounds_and_risk (1, ⟨192, "Active"⟩) (by simp [FAKE_DB_ENGINES])
    rfl _ predict_rul_one

/-- C2: for every positive integer `max_cycles`, the scoring function
returns `health_score = clamp(45 / max_cycles * 100, 0, 100)` rounded to 2
decimal places — clamp before rounding, 45 the fixed RUL constant. -/
theorem predict_matches_spec_formula :
    ∀ m : ℤ, 0 < m →
      (InferenceService.predict m).health_score = spec_health_score (m : ℚ) ∧
      (InferenceService.predict m).predicted_rul = 45 := by
  intro m _
  constructor
  · show round2 _ = round2 _
    congr 1
    rw [spec_clamp, max_min_distrib_left]
    norm_num
  · rfl

/-- Witness for C2 at `max_cycles = 192`. -/
theorem predict_matches_spec_formula_witness :
    (InferenceService.predict 192).health_score = spec_health_score ((192 : ℤ) : ℚ) ∧
    (InferenceService.predict 192).predicted_rul = 45 :=
  predict_matches_spec_formula 192 (by norm_num)

/-- C3: `/predict` fails with 404 exactly on unknown unit ids, fails with
422 exactly on existing retired engines (in particular unit 2), returns a
response otherwise, and no other failure outcome exists. -/
theorem predict_endpoint_outcomes :
    (∀ u : ℤ,
      ((∃ e, predict_rul u = Except.error e ∧ e.status_code = 404) ↔
        dictGet FAKE_DB_ENGINES u = none) ∧
      ((∃ e, predict_rul u = Except.error e ∧ e.status_code = 422) ↔
        (∃ rec, dictGet FAKE_DB_ENGINES u = some rec ∧ rec.status = "Retired")) ∧
      (∀ e, predict_rul u = Except.error e →
        e.status_code = 404 ∨ e.status_code = 422) ∧
      ((∃ r, predict_rul u = Except.ok r) ↔
        (∃ rec, dictGet FAKE_DB_ENGINES u = some rec ∧ rec.status ≠ "Retired"))) ∧
    (∃ e, predict_rul 2 = Except.error e ∧ e.status_code = 422) := by
  refine ⟨fun u => ?_, ⟨⟨422, "Engine is retired"⟩,
    @predict_rul_retired 2 ⟨250, "Retired"⟩ (by decide) rfl, rfl⟩⟩
  rcases h : dictGet FAKE_DB_ENGINES u with _ | rec
  · have hp := predict_rul_none h
    refine ⟨iff_of_true ⟨⟨404, "Engine not found"⟩, hp, rfl⟩ rfl, ?_, ?_, ?_⟩
    · refine iff_of_false ?_ ?_
      · rintro ⟨e, he, hc⟩
        rw [hp] at he
        cases he
        exact absurd hc (by decide)
      · rintro ⟨rec, hrec, -⟩
        exact Option.noConfusion hrec
    · intro e he
      rw [hp] at he
      cases he
      exact Or.inl rfl
    · refine iff_of_false ?_ ?_
      · rintro ⟨r, hr⟩
        rw [hp] at hr
        exact Except.noConfusion hr
      · rintro ⟨rec, hrec, -⟩
        exact Option.noConfusion hrec
  · by_cases hst : rec.status = "Retired"
    · have hp := predict_rul_retired h hst
      refine ⟨?_, iff_of_true ⟨⟨422, "Engine is retired"⟩, hp, rfl⟩ ⟨rec, rfl, hst⟩,
        ?_, ?_⟩
      · refine iff_of_false ?_ (by simp)
        rintro ⟨e, he, hc⟩
        rw [hp] at he
        cases he
        exact absurd hc (by decide)
      · intro e he
        rw [hp] at he
        cases he
        exact Or.inr rfl
      · refine iff_of_false ?_ ?_
        · rintro ⟨r, hr⟩
          rw [hp] at hr
          exact Except.noConfusion hr
        · rintro ⟨rec', hrec', hne⟩
          injection hrec' with h2
          exact hne (h2 ▸ hst)
    · have hp := predict_rul_active h hst
      refine ⟨?_, ?_, ?_, iff_of_true ⟨_, hp⟩ ⟨rec, rfl, hst⟩⟩
      · refine iff_of_false ?_ (by simp)
        rintro ⟨e, he, -⟩
        rw [hp] at he
        exact Except.noConfusion he
      · refine iff_of_false ?_ ?_
        · rintro ⟨e, he, -⟩
          rw [hp] at he
          exact Except.noConfusion he
        · rintro ⟨rec', hrec', hr'⟩
          injection hrec' with h2
          exact hst (h2 ▸ hr')
      · intro e he
        rw [hp] at he
        exact Except.noConfusion he

/-- Witness for C3 at the unknown unit 99. -/
theorem predict_endpoint_outcomes_witness :
    ∃ e, predict_rul 99 = Except.error e ∧ e.status_code = 404 :=
  (predict_endpoint_outcomes.1 99).1.mpr (by decide)

/-- C4: for every Active unit in the static table, `/predict` returns
`predicted_rul = 45`, `current_cycle = max_cycles - 45`, and
`confidence = 0.95`. -/
theorem predict_active_fixed_fields :
    ∀ p ∈ FAKE_DB_ENGINES, p.2.status = "Active" →
      ∃ r, predict_rul p.1 = Except.ok r ∧
        r.predicted_rul = 45 ∧ r.current_cycle = p.2.max_cycles - 45 ∧
        r.confidence = 95/100 := by
  intro p hp hact
  fin_cases hp
  · exact ⟨_, predict_rul_one, rfl, by decide, by norm_num⟩
  · exact absurd hact (by decide)
  · exact ⟨_, predict_rul_five, rfl, by decide, by norm_num⟩

/-- Witness for C4 at unit 1. -/
theorem predict_active_fixed_fields_witness :
    ∃ r, predict_rul 1 = Except.ok r ∧
      r.predicted_rul = 45 ∧ r.current_cycle = (192 : ℤ) - 45 ∧
      r.confidence = 95/100 :=
  predict_active_fixed_fields (1, ⟨192, "Active"⟩) (by simp [FAKE_DB_ENGINES]) rfl

/-- C5: `/trends` on every known unit returns exactly the cycle indices
100..104, the fixed RUL trend [50, 49, 48, 47, 45], and exactly the four
sensor series s_2, s_11, s_12, s_14 with their static names and units,
each with data [1400, 1402, 1404, 1406, 1408], the values `1400 + 2*i`. -/
theorem trends_full_payload :
    (∀ p ∈ FAKE_DB_ENGINES,
      get_trends p.1 = Except.ok
        { unit_id := p.1
          cycles := [100, 101, 102, 103, 104]
          rul_trend := [50, 49, 48, 47, 45]
          sensors :=
            [ ⟨"s_2", "LPC Outlet Temperature", "°R", [1400, 1402, 1404, 1406, 1408]⟩,
              ⟨"s_11", "HPC Outlet Static Pressure", "psia",
                [1400, 1402, 1404, 1406, 1408]⟩,
              ⟨"s_12", "Fuel Flow Ratio", "pps/psi", [1400, 1402, 1404, 1406, 1408]⟩,
              ⟨"s_14", "Corrected Core Speed", "rpm",
                [1400, 1402, 1404, 1406, 1408]⟩ ] }) ∧
    (List.range 5).map (fun i => 1400 + (i : ℤ) * 2) = [1400, 1402, 1404, 1406, 1408] := by
  constructor
  · intro p hp
    fin_cases hp <;> rfl
  · decide

/-- Witness for C5 at unit 1. -/
theorem trends_full_payload_witness :
    get_trends 1 = Except.ok
      { unit_id := 1
        cycles := [100, 101, 102, 103, 104]
        rul_trend := [50, 49, 48, 47, 45]
        sensors :=
          [ ⟨"s_2", "LPC Outlet Temperature", "°R", [1400, 1402, 1404, 1406, 1408]⟩,
            ⟨"s_11", "HPC Outlet Static Pressure", "psia",
              [1400, 1402, 1404, 1406, 1408]⟩,
            ⟨"s_12", "Fuel Flow Ratio", "pps/psi", [1400, 1402, 1404, 1406, 1408]⟩,
            ⟨"s_14", "Corrected Core Speed", "rpm",
              [1400, 1402, 1404, 1406, 1408]⟩ ] } :=
  trends_full_payload.1 (1, ⟨192, "Active"⟩) (by simp [FAKE_DB_ENGINES])

/-- C6: `/trends` fails with 404 exactly on unknown unit ids and succeeds
for every known unit regardless of status — in particular for the retired
unit 2. -/
theorem trends_errors_exactly_unknown :
    (∀ u : ℤ,
      ((∃ e, get_trends u = Except.error e) ↔ dictGet FAKE_DB_ENGINES u = none) ∧
      (∀ e, get_trends u = Except.error e → e.status_code = 404) ∧
      ((∃ t, get_trends u = Except.ok t) ↔ (dictGet FAKE_DB_ENGINES u).isSome = true)) ∧
    (∃ t, get_trends 2 = Except.ok t) := by
  refine ⟨fun u => ?_, @get_trends_some 2 ⟨250, "Retired"⟩ (by decide)⟩
  rcases h : dictGet FAKE_DB_ENGINES u with _ | rec
  · have hp := get_trends_none h
    refine ⟨iff_of_true ⟨⟨404, "Engine not found"⟩, hp⟩ rfl, ?_, ?_⟩
    · intro e he
      rw [hp] at he
      cases he
      rfl
    · refine iff_of_false ?_ (by simp)
      rintro ⟨t, ht⟩
      rw [hp] at ht
      exact Except.noConfusion ht
  · obtain ⟨t, ht⟩ := get_trends_some h
    refine ⟨iff_of_false ?_ (by simp), ?_, iff_of_true ⟨t, ht⟩ rfl⟩
    · rintro ⟨e, he⟩
      rw [ht] at he
      exact Except.noConfusion he
    · intro e he
      rw [ht] at he
      exact Except.noConfusion he

/-- Witness for C6 at the unknown unit 99. -/
theorem trends_errors_exactly_unknown_witness :
    ∃ e, get_trends 99 = Except.error e :=
  (trends_errors_exactly_unknown.1 99).1.mpr (by decide)

/-- C10: every record of the static engine table has `max_cycles ≥ 150 > 0`,
the falsiness check on the looked-up value fires exactly on unit ids absent
from the table, and any record reaching the scoring function has a strictly
positive `max_cycles`: no division by zero. -/
theorem predict_no_division_by_zero :
    (∀ p ∈ FAKE_DB_ENGINES, (150 : ℤ) ≤ p.2.max_cycles) ∧
    (∀ u : ℤ, pyTruthy (dictGet FAKE_DB_ENGINES u) = false ↔
      dictGet FAKE_DB_ENGINES u = none) ∧
    (∀ (u : ℤ) (rec : EngineRec), dictGet FAKE_DB_ENGINES u = some rec →
      150 ≤ rec.max_cycles ∧ 0 < rec.max_cycles) := by
  refine ⟨by decide, fun u => ?_, fun u rec h => ?_⟩
  · cases hd : dictGet FAKE_DB_ENGINES u <;> simp [pyTruthy]
  · rw [dictGet_engines] at h
    split_ifs at h
    · injection h with h2
      subst h2
      exact ⟨by decide, by decide⟩
    · injection h with h2
      subst h2
      exact ⟨by decide, by decide⟩
    · injection h with h2
      subst h2
      exact ⟨by decide, by decide⟩

/-- Witness for C10 at unit 5. -/
theorem predict_no_division_by_zero_witness :
    150 ≤ (⟨150, "Active"⟩ : EngineRec).max_cycles ∧
    0 < (⟨150, "Active"⟩ : EngineRec).max_cycles :=
  predict_no_division_by_zero.2.2 5 ⟨150, "Active"⟩ (by decide)

/-- C7: `/health` returns `{status: "ok"}` with 200 in every state,
`/ready` returns 200 with a boolean `model_loaded` field in every state,
and `model_loaded` is true in every state reachable after startup. -/
theorem probes_always_ok :
    (∀ s : AppState, (handle s .health).2 = .healthOk "ok" ∧
      statusOf (handle s .health).2 = 200) ∧
    (∀ s : AppState, (∃ b : Bool, (handle s .ready).2 = .readyFlag b) ∧
      statusOf (handle s .ready).2 = 200) ∧
    (∀ s : AppState, ReachableAfterStartup s →
      (handle s .ready).2 = .readyFlag true) := by
  refine ⟨fun s => ⟨rfl, rfl⟩, fun s => ⟨⟨s.model.isSome, rfl⟩, rfl⟩, fun s h => ?_⟩
  rw [reachable_eq_startup s h]
  rfl

/-- Witness for C7 at the startup state. -/
theorem probes_always_ok_witness :
    (handle startupState .health).2 = .healthOk "ok" ∧
    (handle startupState .ready).2 = .readyFlag true :=
  ⟨(probes_always_ok.1 startupState).1,
    probes_always_ok.2.2 startupState ReachableAfterStartup.startup⟩

/-- C8: no handler modifies the engine table, the sensor table, or the
model flag; after startup the tables are the static ones with exactly the
three units 1, 2, 5, and the model flag is set only by the startup hook
(none before it, `"LSTM_LOADED"` after). -/
theorem handlers_preserve_state :
    (∀ (s : AppState) (r : ApiRequest), (handle s r).1 = s) ∧
    (∀ s : AppState, ReachableAfterStartup s →
      s.engines = FAKE_DB_ENGINES ∧ s.sensors = SENSOR_METADATA ∧
      s.model = some "LSTM_LOADED") ∧
    (FAKE_DB_ENGINES.map Prod.fst = [1, 2, 5] ∧ FAKE_DB_ENGINES.length = 3) ∧
    (initState.model = none ∧
      (InferenceService.load initState).model = some "LSTM_LOADED") := by
  refine ⟨handle_fst, fun s h => ?_, ⟨by decide, rfl⟩, rfl, rfl⟩
  rw [reachable_eq_startup s h]
  exact ⟨rfl, rfl, rfl⟩

/-- Witness for C8 at the startup state and the list-engines handler. -/
theorem handlers_preserve_state_witness :
    (handle startupState .listEngines).1 = startupState ∧
    startupState.engines = FAKE_DB_ENGINES :=
  ⟨handlers_preserve_state.1 startupState .listEngines,
    (handlers_preserve_state.2.1 startupState ReachableAfterStartup.startup).1⟩

/-- C9: every endpoint is deterministic — repeating a request in the state
a handler left behind yields the identical response, and the trend sensor
data contains no randomness or request-dependent input: any two successful
trend responses carry the same data lists, whatever the unit ids. -/
theorem endpoints_deterministic :
    (∀ (s : AppState) (r : ApiRequest), handle (handle s r).1 r = handle s r) ∧
    (∀ (s : AppState) (u v : ℤ) (t t' : SensorTrendResponse),
      get_trends_db s.engines s.sensors u = Except.ok t →
      get_trends_db s.engines s.sensors v = Except.ok t' →
      t.sensors.map SensorSeries.data = t'.sensors.map SensorSeries.data) := by
  refine ⟨fun s r => by rw [handle_fst], fun s u v t t' hu hv => ?_⟩
  by_cases h1 : (dictGet s.engines u).isNone <;>
    simp only [get_trends_db, h1, if_true, if_false, Bool.false_eq_true] at hu
  · exact Except.noConfusion hu
  · by_cases h2 : (dictGet s.engines v).isNone <;>
      simp only [get_trends_db, h2, if_true, if_false, Bool.false_eq_true] at hv
    · exact Except.noConfusion hv
    · injection hu with hu'
      injection hv with hv'
      rw [← hu', ← hv']

/-- Witness for C9: the trend responses of units 1 and 2 carry identical
sensor data. -/
theorem endpoints_deterministic_witness :
    ({ unit_id := 1
       cycles := [100, 101, 102, 103, 104]
       rul_trend := [50, 49, 48, 47, 45]
       sensors :=
        [ ⟨"s_2", "LPC Outlet Temperature", "°R", [1400, 1402, 1404, 1406, 1408]⟩,
          ⟨"s_11", "HPC Outlet Static Pressure", "psia",
            [1400, 1402, 1404, 1406, 1408]⟩,
          ⟨"s_12", "Fuel Flow Ratio", "pps/psi", [1400, 1402, 1404, 1406, 1408]⟩,
          ⟨"s_14", "Corrected Core Speed", "rpm",
            [1400, 1402, 1404, 1406, 1408]⟩ ] } : SensorTrendResponse).sensors.map
        SensorSeries.data =
    ({ unit_id := 2
       cycles := [100, 101, 102, 103, 104]
       rul_trend := [50, 49, 48, 47, 45]
       sensors :=
        [ ⟨"s_2", "LPC Outlet Temperature", "°R", [1400, 1402, 1404, 1406, 1408]⟩,
          ⟨"s_11", "HPC Outlet Static Pressure", "psia",
            [1400, 1402, 1404, 1406, 1408]⟩,
          ⟨"s_12", "Fuel Flow Ratio", "pps/psi", [1400, 1402, 1404, 1406, 1408]⟩,
          ⟨"s_14", "Corrected Core Speed", "rpm",
            [1400, 1402, 1404, 1406, 1408]⟩ ] } : SensorTrendResponse).sensors.map
        SensorSeries.data :=
  endpoints_deterministic.2 startupState 1 2 _ _ rfl rfl

end PMS
